import Mathlib

/-!
# Verification of the market-metrics monitoring pipeline

Shallow embedding of the `market_metrics` module of the order-book server
(files `monitor.rs`, `types.rs`, `hyperliquid_client.rs`, `database.rs`).

Modelling conventions:
* `rust_decimal::Decimal` values are modelled as exact rationals (`ℚ`);
  the 96-bit precision/overflow limits of the concrete type are idealised.
  The one partial operation that matters is division, which panics in Rust
  on a zero divisor: functions in which such a division occurs return
  `Except String _`, with `Except.error` modelling the panic.
* `DateTime<Utc>` timestamps are modelled as integers (`ℤ`).
* `HashMap` / `HashSet` are modelled as association lists / lists with
  insert-replace and membership semantics.
* Network responses and JSON payloads are modelled by explicit inductive
  types; `serde` deserialization of the two payload structs is translated
  field by field.
-/

namespace MarketMetricsVerif

/-! ## Data model (`types.rs`) -/

/-- `MarketMetrics` from `types.rs`: the persisted record.  Every data field
is optional; `Decimal` fields are `ℚ`, latency fields are integers. -/
structure MarketMetrics where
  coin : String
  timestamp : ℤ
  mark_price : Option ℚ
  oracle_price : Option ℚ
  mid_price : Option ℚ
  best_bid : Option ℚ
  best_ask : Option ℚ
  spread : Option ℚ
  spread_pct : Option ℚ
  funding_rate_pct : Option ℚ
  open_interest : Option ℚ
  volume_24h : Option ℚ
  bid_depth_5pct : Option ℚ
  ask_depth_5pct : Option ℚ
  total_depth_5pct : Option ℚ
  bid_depth_10pct : Option ℚ
  ask_depth_10pct : Option ℚ
  total_depth_10pct : Option ℚ
  bid_depth_25pct : Option ℚ
  ask_depth_25pct : Option ℚ
  total_depth_25pct : Option ℚ
  premium : Option ℚ
  impact_px_bid : Option ℚ
  impact_px_ask : Option ℚ
  node_latency_ms : Option ℤ
  websocket_latency_ms : Option ℤ
  total_latency_ms : Option ℤ
  deriving DecidableEq, Repr

/-- `HyperliquidMarketData` from `types.rs`: one cached price-feed entry.
Only the impact prices are optional in the source; every other field is a
plain `Decimal`. -/
structure HyperliquidMarketData where
  coin : String
  mark_price : ℚ
  oracle_price : ℚ
  mid_price : ℚ
  funding_rate_pct : ℚ
  open_interest : ℚ
  volume_24h : ℚ
  premium : ℚ
  impact_px_bid : Option ℚ
  impact_px_ask : Option ℚ
  deriving DecidableEq, Repr

/-- `OrderBookMetrics` from `types.rs`. -/
structure OrderBookMetrics where
  best_bid : ℚ
  best_ask : ℚ
  mid_price : ℚ
  spread : ℚ
  spread_pct : ℚ
  total_bids : ℕ
  total_asks : ℕ
  bid_depth_5pct : ℚ
  ask_depth_5pct : ℚ
  total_depth_5pct : ℚ
  bid_depth_10pct : ℚ
  ask_depth_10pct : ℚ
  total_depth_10pct : ℚ
  bid_depth_25pct : ℚ
  ask_depth_25pct : ℚ
  total_depth_25pct : ℚ
  deriving DecidableEq, Repr

/-- `MarketMetrics::new` from `types.rs`: a fresh record with every data
field absent.  `now` models the `Utc::now()` call. -/
def MarketMetrics.new (coin : String) (now : ℤ) : MarketMetrics where
  coin := coin
  timestamp := now
  mark_price := none
  oracle_price := none
  mid_price := none
  best_bid := none
  best_ask := none
  spread := none
  spread_pct := none
  funding_rate_pct := none
  open_interest := none
  volume_24h := none
  bid_depth_5pct := none
  ask_depth_5pct := none
  total_depth_5pct := none
  bid_depth_10pct := none
  ask_depth_10pct := none
  total_depth_10pct := none
  bid_depth_25pct := none
  ask_depth_25pct := none
  total_depth_25pct := none
  premium := none
  impact_px_bid := none
  impact_px_ask := none
  node_latency_ms := none
  websocket_latency_ms := none
  total_latency_ms := none

/-- `MarketMetrics::merge_hyperliquid_data` from `types.rs`: copies the
eight price-feed fields into the record (note: `data.mid_price` is not
among them). -/
def MarketMetrics.merge_hyperliquid_data (m : MarketMetrics)
    (data : HyperliquidMarketData) : MarketMetrics :=
  { m with
    mark_price := some data.mark_price
    oracle_price := some data.oracle_price
    funding_rate_pct := some data.funding_rate_pct
    open_interest := some data.open_interest
    volume_24h := some data.volume_24h
    premium := some data.premium
    impact_px_bid := data.impact_px_bid
    impact_px_ask := data.impact_px_ask }

/-- `MarketMetrics::merge_orderbook_data` from `types.rs`: copies the
fourteen order-book-derived fields into the record. -/
def MarketMetrics.merge_orderbook_data (m : MarketMetrics)
    (data : OrderBookMetrics) : MarketMetrics :=
  { m with
    best_bid := some data.best_bid
    best_ask := some data.best_ask
    mid_price := some data.mid_price
    spread := some data.spread
    spread_pct := some data.spread_pct
    bid_depth_5pct := some data.bid_depth_5pct
    ask_depth_5pct := some data.ask_depth_5pct
    total_depth_5pct := some data.total_depth_5pct
    bid_depth_10pct := some data.bid_depth_10pct
    ask_depth_10pct := some data.ask_depth_10pct
    total_depth_10pct := some data.total_depth_10pct
    bid_depth_25pct := some data.bid_depth_25pct
    ask_depth_25pct := some data.ask_depth_25pct
    total_depth_25pct := some data.total_depth_25pct }

/-! ## Liquidity depth (`monitor.rs`, `calculate_liquidity_depth`) -/

/-- `calculate_liquidity_depth` from `monitor.rs`: for each percentage in
`[0.05, 0.10, 0.25]` it filters the bid ladder by
`price >= mid_price * (1 - pct)` and the ask ladder by
`price <= mid_price * (1 + pct)` and sums `price * size`, returning the
six depths in the tuple order of the source
`(bid5, ask5, bid10, ask10, bid25, ask25)`.  The default arm of the final
match is unreachable (the percentages list has three elements). -/
def calculate_liquidity_depth (bids asks : List (ℚ × ℚ)) (mid_price : ℚ) :
    ℚ × ℚ × ℚ × ℚ × ℚ × ℚ :=
  let percentages : List ℚ := [5/100, 10/100, 25/100]
  let results := percentages.map (fun pct =>
    let bid_threshold := mid_price * (1 - pct)
    let ask_threshold := mid_price * (1 + pct)
    let bid_depth :=
      ((bids.filter (fun l => decide (bid_threshold ≤ l.1))).map
        (fun l => l.1 * l.2)).sum
    let ask_depth :=
      ((asks.filter (fun l => decide (l.1 ≤ ask_threshold))).map
        (fun l => l.1 * l.2)).sum
    (bid_depth, ask_depth))
  match results with
  | r0 :: r1 :: r2 :: _ => (r0.1, r0.2, r1.1, r1.2, r2.1, r2.2)
  | _ => (0, 0, 0, 0, 0, 0)

/-! ## Price-feed client (`hyperliquid_client.rs`) -/

/-- Model of `rust_decimal::Decimal::from_str` (external library) for plain
decimal literals: an optional sign, decimal digits with at most one point,
at least one digit in total.  Underscore separators, scientific notation
and the 28-digit precision limit of the concrete type are not modelled. -/
def digitsToNat (cs : List Char) : ℕ :=
  cs.foldl (fun a c => 10 * a + (c.toNat - 48)) 0

/-- Unsigned part of the decimal-string model: `intPart[.fracPart]`. -/
def parseUnsigned (cs : List Char) : Option ℚ :=
  let intPart := cs.takeWhile (fun c => c != '.')
  let rest := cs.dropWhile (fun c => c != '.')
  match rest with
  | [] =>
      if intPart ≠ [] ∧ intPart.all Char.isDigit then
        some (digitsToNat intPart)
      else none
  | '.' :: frac =>
      if (intPart ≠ [] ∨ frac ≠ []) ∧ intPart.all Char.isDigit ∧
          frac.all Char.isDigit then
        some ((digitsToNat intPart : ℚ) +
          (digitsToNat frac : ℚ) / (10 : ℚ) ^ frac.length)
      else none
  | _ :: _ => none

/-- `Decimal::from_str` model: see `parseUnsigned`. -/
def parseDecimal (s : String) : Option ℚ :=
  match s.toList with
  | '-' :: rest => (parseUnsigned rest).map (fun q => -q)
  | '+' :: rest => parseUnsigned rest
  | cs => parseUnsigned cs

/-- Minimal JSON value model (`serde_json::Value`). -/
inductive Json where
  | null
  | bool (b : Bool)
  | str (s : String)
  | num (q : ℚ)
  | arr (xs : List Json)
  | obj (kvs : List (String × Json))

/-- `Value::as_array`. -/
def Json.asArray : Json → Option (List Json)
  | .arr xs => some xs
  | _ => none

/-- `Value::get(key)` on an object (`None` on any other variant). -/
def Json.getField (j : Json) (k : String) : Option Json :=
  match j with
  | .obj kvs => (kvs.find? (fun kv => kv.1 == k)).map (fun kv => kv.2)
  | _ => none

/-- `AssetMeta` from `hyperliquid_client.rs` (serde target). -/
structure AssetMeta where
  name : String
  deriving DecidableEq, Repr

/-- `AssetContext` from `hyperliquid_client.rs` (serde target,
camelCase field names in the JSON).  `mid_px`, `premium` and `impact_pxs`
are `Option`; the other five numeric strings are required. -/
structure AssetContext where
  mark_px : String
  oracle_px : String
  mid_px : Option String
  funding : String
  open_interest : String
  day_ntl_vlm : String
  premium : Option String
  impact_pxs : Option (List String)
  deriving DecidableEq, Repr

/-- serde: a required `String` field — missing key or non-string value is a
deserialization error. -/
def getReqStr (j : Json) (k : String) : Except String String :=
  match j.getField k with
  | some (.str s) => .ok s
  | some _ => .error ("invalid type for field " ++ k)
  | none => .error ("missing field " ++ k)

/-- serde: an `Option<String>` field — missing key or `null` is `none`;
a present non-string, non-null value is a deserialization error. -/
def getOptStr (j : Json) (k : String) : Except String (Option String) :=
  match j.getField k with
  | some (.str s) => .ok (some s)
  | some .null => .ok none
  | some _ => .error ("invalid type for field " ++ k)
  | none => .ok none

/-- serde: an `Option<Vec<String>>` field. -/
def getOptStrArr (j : Json) (k : String) : Except String (Option (List String)) :=
  match j.getField k with
  | some (.arr xs) => do
      let ss ← xs.mapM (fun x => match x with
        | Json.str s => Except.ok s
        | _ => Except.error ("invalid type for field " ++ k))
      .ok (some ss)
  | some .null => .ok none
  | some _ => .error ("invalid type for field " ++ k)
  | none => .ok none

/-- `serde_json::from_value::<AssetMeta>`. -/
def parseAssetMeta (j : Json) : Except String AssetMeta := do
  let name ← getReqStr j "name"
  .ok { name := name }

/-- `serde_json::from_value::<AssetContext>` (camelCase renaming). -/
def parseAssetContext (j : Json) : Except String AssetContext := do
  let mark_px ← getReqStr j "markPx"
  let oracle_px ← getReqStr j "oraclePx"
  let mid_px ← getOptStr j "midPx"
  let funding ← getReqStr j "funding"
  let open_interest ← getReqStr j "openInterest"
  let day_ntl_vlm ← getReqStr j "dayNtlVlm"
  let premium ← getOptStr j "premium"
  let impact_pxs ← getOptStrArr j "impactPxs"
  .ok { mark_px := mark_px, oracle_px := oracle_px, mid_px := mid_px,
        funding := funding, open_interest := open_interest,
        day_ntl_vlm := day_ntl_vlm, premium := premium,
        impact_pxs := impact_pxs }

/-- The per-market construction of `HyperliquidMarketData` in
`fetch_and_cache_all_markets` (`hyperliquid_client.rs` lines 119–145):
every `Decimal::from_str(..).unwrap_or_default()` becomes
`(parseDecimal ..).getD 0`. -/
def mkMarketData (meta : AssetMeta) (ctx : AssetContext) :
    HyperliquidMarketData where
  coin := meta.name
  mark_price := (parseDecimal ctx.mark_px).getD 0
  oracle_price := (parseDecimal ctx.oracle_px).getD 0
  mid_price := (ctx.mid_px.bind (fun s => parseDecimal s)).getD 0
  funding_rate_pct := (parseDecimal ctx.funding).getD 0 * 100
  open_interest :=
    (parseDecimal ctx.open_interest).getD 0 * (parseDecimal ctx.mark_px).getD 0
  volume_24h := (parseDecimal ctx.day_ntl_vlm).getD 0
  premium := (ctx.premium.bind (fun s => parseDecimal s)).getD 0
  impact_px_bid := (ctx.impact_pxs.bind (fun v => v.get? 0)).bind
    (fun s => parseDecimal s)
  impact_px_ask := (ctx.impact_pxs.bind (fun v => v.get? 1)).bind
    (fun s => parseDecimal s)

/-- The cache map `HashMap<String, HyperliquidMarketData>` as an
association list with insert-replace semantics. -/
abbrev Cache := List (String × HyperliquidMarketData)

/-- `HashMap::insert` on the association-list model. -/
def insertAssoc (m : Cache) (k : String) (v : HyperliquidMarketData) : Cache :=
  match m with
  | [] => [(k, v)]
  | (k2, v2) :: rest =>
      if k2 == k then (k, v) :: rest else (k2, v2) :: insertAssoc rest k v

/-- The zip-and-parse loop of `fetch_and_cache_all_markets`
(`for (i, meta_val) in universe.iter().enumerate()`, truncated to the
shorter list): any serde failure for one market aborts the whole build
(the `?` operator). -/
def buildMarketMap : List (Json × Json) → Cache → Except String Cache
  | [], acc => .ok acc
  | (mv, cv) :: rest, acc => do
      let meta ← parseAssetMeta mv
      let ctx ← parseAssetContext cv
      buildMarketMap rest (insertAssoc acc meta.name (mkMarketData meta ctx))

/-- One refresh attempt, as observed by the pure model: either the HTTP
send failed, or a response arrived with a status code and a body that did
or did not decode as JSON (`response.json()`). -/
inductive FetchResponse where
  | sendError (e : String)
  | response (status : ℕ) (body : Except String Json)

/-- `reqwest::StatusCode::is_success` (2xx). -/
def statusIsSuccess (s : ℕ) : Bool := 200 ≤ s ∧ s < 300

/-- `fetch_and_cache_all_markets` from `hyperliquid_client.rs`: computes
the new cache map from the response; every early `return Err`/`?` of the
source is an `Except.error` here, produced before any cache mutation. -/
def fetch_and_cache_all_markets (resp : FetchResponse) : Except String Cache := do
  match resp with
  | .sendError e => .error e
  | .response status body =>
      if ¬ statusIsSuccess status then
        .error ("API error: " ++ toString status)
      else do
        let data ← body
        let array ← match data.asArray with
          | some a => Except.ok a
          | none => Except.error "Expected array response"
        match array with
        | [universe_obj, ctxs_val] => do
            let universeArr ← match universe_obj.getField "universe" with
              | some u => match u.asArray with
                  | some ua => Except.ok ua
                  | none => Except.error "Expected universe array"
              | none => match universe_obj.asArray with
                  | some ua => Except.ok ua
                  | none => Except.error "Expected universe array"
            let asset_ctxs ← match ctxs_val.asArray with
              | some ca => Except.ok ca
              | none => Except.error "Expected asset_ctxs array"
            buildMarketMap (universeArr.zip asset_ctxs) []
        | _ => .error "Expected 2 elements in response"

/-- The cache state after one tick of the polling loop (`start_polling` /
the `*cache = market_data_map` write): on success the map is swapped
wholesale, on error the old cache is kept (the error is only logged). -/
def cacheAfterRefresh (cache : Cache) (resp : FetchResponse) : Cache :=
  match fetch_and_cache_all_markets resp with
  | .ok m => m
  | .error _ => cache

/-- `get_market_data` from `hyperliquid_client.rs`: read one coin from the
cache. -/
def get_market_data (cache : Cache) (coin : String) :
    Option HyperliquidMarketData :=
  (cache.find? (fun kv => kv.1 == coin)).map (fun kv => kv.2)

/-! ## Monitor (`monitor.rs`) -/

/-- One resting order of a snapshot ladder; `limit_px` and `sz` model the
`Px`/`Sz` values through their `to_str()` rendering, which is what
`get_orderbook_metrics` consumes. -/
structure RawOrder where
  limit_px : String
  sz : String
  deriving DecidableEq, Repr

/-- The per-coin snapshot view: `snapshot_data.as_ref()[0]` is the bid
ladder, `[1]` the ask ladder. -/
abbrev SnapshotMap := List (String × (List RawOrder × List RawOrder))

/-- `get_orderbook_metrics` from `monitor.rs`.  `Except.error` models the
panic of `Decimal` division by a zero divisor (the `spread / mid_price`
expression has no zero guard in the source); `Option` models the `?`
early-`None` returns (no snapshot, unknown coin, an empty side, an
unparseable best price). -/
def get_orderbook_metrics (snapshot : Option SnapshotMap) (coin : String) :
    Except String (Option OrderBookMetrics) :=
  match snapshot with
  | none => .ok none
  | some snap =>
    match snap.find? (fun kv => kv.1 == coin) with
    | none => .ok none
    | some (_, bids, asks) =>
      if bids.isEmpty || asks.isEmpty then .ok none
      else
        match bids, asks with
        | b0 :: _, a0 :: _ =>
          (match parseDecimal b0.limit_px, parseDecimal a0.limit_px with
          | some best_bid, some best_ask =>
            let mid_price := (best_bid + best_ask) / 2
            let spread := best_ask - best_bid
            if mid_price = 0 then .error "Division by zero"
            else
              let spread_pct := spread / mid_price * 100
              let bid_levels := bids.filterMap (fun o =>
                match parseDecimal o.limit_px, parseDecimal o.sz with
                | some p, some s => some (p, s)
                | _, _ => none)
              let ask_levels := asks.filterMap (fun o =>
                match parseDecimal o.limit_px, parseDecimal o.sz with
                | some p, some s => some (p, s)
                | _, _ => none)
              let depths := calculate_liquidity_depth bid_levels ask_levels mid_price
              .ok (some
                { best_bid := best_bid
                  best_ask := best_ask
                  mid_price := mid_price
                  spread := spread
                  spread_pct := spread_pct
                  total_bids := bids.length
                  total_asks := asks.length
                  bid_depth_5pct := depths.1
                  ask_depth_5pct := depths.2.1
                  total_depth_5pct := depths.1 + depths.2.1
                  bid_depth_10pct := depths.2.2.1
                  ask_depth_10pct := depths.2.2.2.1
                  total_depth_10pct := depths.2.2.1 + depths.2.2.2.1
                  bid_depth_25pct := depths.2.2.2.2.1
                  ask_depth_25pct := depths.2.2.2.2.2
                  total_depth_25pct := depths.2.2.2.2.1 + depths.2.2.2.2.2 })
          | _, _ => .ok none)
        | _, _ => .ok none

/-- `collect_and_store_metrics` from `monitor.rs`, as a pure function of
its collaborator inputs: the cached price-feed entry (if any), the
order-book snapshot, and the sampling instant.  The returned record is the
one handed to `insert_metrics`; a propagated division panic is
`Except.error`. -/
def collect_and_store_metrics (coin : String) (now : ℤ)
    (hl_data : Option HyperliquidMarketData)
    (snapshot : Option SnapshotMap) : Except String MarketMetrics :=
  let metrics := MarketMetrics.new coin now
  let metrics := match hl_data with
    | some d => metrics.merge_hyperliquid_data d
    | none => metrics
  match get_orderbook_metrics snapshot coin with
  | .error e => .error e
  | .ok ob =>
    let metrics := match ob with
      | some m => metrics.merge_orderbook_data m
      | none => metrics
    .ok metrics

/-! ## Storage (`database.rs`) -/

/-- `MetricsDatabase`: the process-local provisioned-set cache
(`created_tables : HashSet<String>`, modelled as a list with membership
semantics).  The pooled connection is external and not modelled. -/
structure MetricsDatabase where
  created_tables : List String
  deriving DecidableEq, Repr

/-- The per-symbol table name: `format!("{}_metrics_raw", coin.to_lowercase())`. -/
def market_table_name (coin_symbol : String) : String :=
  coin_symbol.toLower ++ "_metrics_raw"

/-- The DDL batch issued by `ensure_market_table` (the `schema_sql`
format string, whitespace compacted to single spaces). -/
def schema_sql (coin_symbol : String) : String :=
  let t := market_table_name coin_symbol
  let lower := coin_symbol.toLower
  "CREATE TABLE IF NOT EXISTS market_metrics." ++ t ++
  " (id SERIAL PRIMARY KEY, timestamp TIMESTAMPTZ NOT NULL DEFAULT NOW()," ++
  " coin VARCHAR(20) NOT NULL, mark_price DECIMAL(20, 8)," ++
  " oracle_price DECIMAL(20, 8), mid_price DECIMAL(20, 8)," ++
  " best_bid DECIMAL(20, 8), best_ask DECIMAL(20, 8), spread DECIMAL(20, 8)," ++
  " spread_pct DECIMAL(10, 6), funding_rate_pct DECIMAL(12, 10)," ++
  " open_interest DECIMAL(20, 8), volume_24h DECIMAL(20, 8)," ++
  " bid_depth_5pct DECIMAL(20, 8), ask_depth_5pct DECIMAL(20, 8)," ++
  " total_depth_5pct DECIMAL(20, 8), bid_depth_10pct DECIMAL(20, 8)," ++
  " ask_depth_10pct DECIMAL(20, 8), total_depth_10pct DECIMAL(20, 8)," ++
  " bid_depth_25pct DECIMAL(20, 8), ask_depth_25pct DECIMAL(20, 8)," ++
  " total_depth_25pct DECIMAL(20, 8), premium DECIMAL(12, 10)," ++
  " impact_px_bid DECIMAL(20, 8), impact_px_ask DECIMAL(20, 8)," ++
  " node_latency_ms INTEGER, websocket_latency_ms INTEGER," ++
  " total_latency_ms INTEGER, created_at TIMESTAMPTZ DEFAULT NOW()," ++
  " UNIQUE(timestamp, coin));" ++
  " CREATE INDEX IF NOT EXISTS idx_" ++ lower ++ "_metrics_timestamp" ++
  " ON market_metrics." ++ t ++ "(timestamp DESC);" ++
  " CREATE INDEX IF NOT EXISTS idx_" ++ lower ++ "_metrics_coin_timestamp" ++
  " ON market_metrics." ++ t ++ "(coin, timestamp DESC);"

/-- `ensure_market_table` from `database.rs`: if the table name is already
in the local provisioned set, return `Ok` at once, issuing nothing;
otherwise run the DDL batch (`batch_execute`, assumed to succeed — the
datastore is external) and record the table name.  The second component is
the list of DDL batches sent to the datastore by this call. -/
def ensure_market_table (db : MetricsDatabase) (coin_symbol : String) :
    MetricsDatabase × List String :=
  let t := market_table_name coin_symbol
  if db.created_tables.contains t then (db, [])
  else ({ created_tables := t :: db.created_tables }, [schema_sql coin_symbol])

/-! ## Concrete upstream payloads used in the theorems -/

/-- A context object carrying the five required numeric fields as JSON
strings, plus `midPx` / `premium` / `impactPxs` entries only when
supplied. -/
def feedCtxJson (mark oracle funding oi vol : String)
    (mid prem : Option String) (impact : Option (List String)) : Json :=
  Json.obj
    ([("markPx", Json.str mark), ("oraclePx", Json.str oracle),
      ("funding", Json.str funding), ("openInterest", Json.str oi),
      ("dayNtlVlm", Json.str vol)] ++
     (match mid with | some s => [("midPx", Json.str s)] | none => []) ++
     (match prem with | some s => [("premium", Json.str s)] | none => []) ++
     (match impact with
      | some ss => [("impactPxs", Json.arr (ss.map Json.str))]
      | none => []))

/-- A context object whose required `funding` field is missing
entirely. -/
def ctxMissingFunding (mark oracle oi vol : String) : Json :=
  Json.obj [("markPx", Json.str mark), ("oraclePx", Json.str oracle),
            ("openInterest", Json.str oi), ("dayNtlVlm", Json.str vol)]

/-- A one-market `[universe, assetCtxs]` response body. -/
def feedBody (name : String) (ctx : Json) : Json :=
  Json.arr
    [Json.obj [("universe", Json.arr [Json.obj [("name", Json.str name)]])],
     Json.arr [ctx]]

/-- A successful HTTP response carrying `feedBody`. -/
def feedResp (name : String) (ctx : Json) : FetchResponse :=
  FetchResponse.response 200 (Except.ok (feedBody name ctx))

/-- A sample cached feed entry, used by concrete witnesses below. -/
def sampleFeedEntry : HyperliquidMarketData where
  coin := "BTC"
  mark_price := 7
  oracle_price := 6
  mid_price := 5
  funding_rate_pct := 1
  open_interest := 2
  volume_24h := 3
  premium := 4
  impact_px_bid := none
  impact_px_ask := none

/-! ## Theorems -/

/-- C1: for every bid ladder, ask ladder and mid price,
`calculate_liquidity_depth` returns, for each threshold `p ∈ {0.05, 0.10,
0.25}`, the bid depth as the sum of `price * size` over exactly the bid
levels with `price ≥ midPrice * (1 - p)` and the ask depth as the sum of
`price * size` over exactly the ask levels with
`price ≤ midPrice * (1 + p)`; and on the concrete ladders
`[(100,2),(99,3)]` / `[(101,1),(102,4)]` with mid price `100.5` it
returns `bid5 = 497` and `ask5 = 509`. -/
theorem calculate_liquidity_depth_spec :
    (∀ (bids asks : List (ℚ × ℚ)) (midPrice : ℚ),
      (calculate_liquidity_depth bids asks midPrice).1 =
        ((bids.filter (fun l => decide (midPrice * (1 - 5/100) ≤ l.1))).map
          (fun l => l.1 * l.2)).sum ∧
      (calculate_liquidity_depth bids asks midPrice).2.1 =
        ((asks.filter (fun l => decide (l.1 ≤ midPrice * (1 + 5/100)))).map
          (fun l => l.1 * l.2)).sum ∧
      (calculate_liquidity_depth bids asks midPrice).2.2.1 =
        ((bids.filter (fun l => decide (midPrice * (1 - 10/100) ≤ l.1))).map
          (fun l => l.1 * l.2)).sum ∧
      (calculate_liquidity_depth bids asks midPrice).2.2.2.1 =
        ((asks.filter (fun l => decide (l.1 ≤ midPrice * (1 + 10/100)))).map
          (fun l => l.1 * l.2)).sum ∧
      (calculate_liquidity_depth bids asks midPrice).2.2.2.2.1 =
        ((bids.filter (fun l => decide (midPrice * (1 - 25/100) ≤ l.1))).map
          (fun l => l.1 * l.2)).sum ∧
      (calculate_liquidity_depth bids asks midPrice).2.2.2.2.2 =
        ((asks.filter (fun l => decide (l.1 ≤ midPrice * (1 + 25/100)))).map
          (fun l => l.1 * l.2)).sum) ∧
    (calculate_liquidity_depth [(100, 2), (99, 3)] [(101, 1), (102, 4)]
        (201/2)).1 = 497 ∧
    (calculate_liquidity_depth [(100, 2), (99, 3)] [(101, 1), (102, 4)]
        (201/2)).2.1 = 509 := by
  refine ⟨fun bids asks midPrice => ⟨rfl, rfl, rfl, rfl, rfl, rfl⟩, ?_, ?_⟩ <;>
    norm_num [calculate_liquidity_depth, List.filter, List.sum]

/-- C6: on a fresh record, merging the price-feed data and then the
order-book data gives the same record as merging in the reverse order
(the two merges write disjoint field sets). -/
theorem merge_order_commutes (coin : String) (ts : ℤ)
    (hl : HyperliquidMarketData) (ob : OrderBookMetrics) :
    ((MarketMetrics.new coin ts).merge_hyperliquid_data hl).merge_orderbook_data ob =
    ((MarketMetrics.new coin ts).merge_orderbook_data ob).merge_hyperliquid_data hl :=
  rfl

/-- C10: `merge_hyperliquid_data` writes exactly the eight price-feed
fields and leaves every other field — in particular `mid_price`, although
the feed entry carries a (parsed) mid price — unchanged. -/
theorem merge_hyperliquid_data_frame (m : MarketMetrics)
    (d : HyperliquidMarketData) :
    (m.merge_hyperliquid_data d).mark_price = some d.mark_price ∧
    (m.merge_hyperliquid_data d).oracle_price = some d.oracle_price ∧
    (m.merge_hyperliquid_data d).funding_rate_pct = some d.funding_rate_pct ∧
    (m.merge_hyperliquid_data d).open_interest = some d.open_interest ∧
    (m.merge_hyperliquid_data d).volume_24h = some d.volume_24h ∧
    (m.merge_hyperliquid_data d).premium = some d.premium ∧
    (m.merge_hyperliquid_data d).impact_px_bid = d.impact_px_bid ∧
    (m.merge_hyperliquid_data d).impact_px_ask = d.impact_px_ask ∧
    (m.merge_hyperliquid_data d).coin = m.coin ∧
    (m.merge_hyperliquid_data d).timestamp = m.timestamp ∧
    (m.merge_hyperliquid_data d).mid_price = m.mid_price ∧
    (m.merge_hyperliquid_data d).best_bid = m.best_bid ∧
    (m.merge_hyperliquid_data d).best_ask = m.best_ask ∧
    (m.merge_hyperliquid_data d).spread = m.spread ∧
    (m.merge_hyperliquid_data d).spread_pct = m.spread_pct ∧
    (m.merge_hyperliquid_data d).bid_depth_5pct = m.bid_depth_5pct ∧
    (m.merge_hyperliquid_data d).ask_depth_5pct = m.ask_depth_5pct ∧
    (m.merge_hyperliquid_data d).total_depth_5pct = m.total_depth_5pct ∧
    (m.merge_hyperliquid_data d).bid_depth_10pct = m.bid_depth_10pct ∧
    (m.merge_hyperliquid_data d).ask_depth_10pct = m.ask_depth_10pct ∧
    (m.merge_hyperliquid_data d).total_depth_10pct = m.total_depth_10pct ∧
    (m.merge_hyperliquid_data d).bid_depth_25pct = m.bid_depth_25pct ∧
    (m.merge_hyperliquid_data d).ask_depth_25pct = m.ask_depth_25pct ∧
    (m.merge_hyperliquid_data d).total_depth_25pct = m.total_depth_25pct ∧
    (m.merge_hyperliquid_data d).node_latency_ms = m.node_latency_ms ∧
    (m.merge_hyperliquid_data d).websocket_latency_ms = m.websocket_latency_ms ∧
    (m.merge_hyperliquid_data d).total_latency_ms = m.total_latency_ms := by
  repeat constructor

/-- C8: calling `ensure_market_table` twice for the same symbol performs
the schema DDL at most once: after the first call the symbol's table name
is in the provisioned-set cache, and the second call changes nothing and
issues no DDL. -/
theorem ensure_market_table_idempotent (db : MetricsDatabase) (coin : String) :
    (ensure_market_table (ensure_market_table db coin).1 coin).2 = [] ∧
    (ensure_market_table (ensure_market_table db coin).1 coin).1 =
      (ensure_market_table db coin).1 ∧
    market_table_name coin ∈ ((ensure_market_table db coin).1).created_tables ∧
    (ensure_market_table db coin).2.length +
      (ensure_market_table (ensure_market_table db coin).1 coin).2.length ≤ 1 := by
  by_cases h : db.created_tables.contains (market_table_name coin) <;>
    simp_all [ensure_market_table, List.elem_iff]

/-- Tightening the lower bound of a `price ≥ threshold` filter can only
drop nonnegative notional terms from the sum. -/
lemma sum_filter_ge_mono (xs : List (ℚ × ℚ)) {t1 t2 : ℚ} (h : t2 ≤ t1)
    (hnn : ∀ l ∈ xs, 0 ≤ l.1 * l.2) :
    ((xs.filter (fun l => decide (t1 ≤ l.1))).map (fun l => l.1 * l.2)).sum ≤
    ((xs.filter (fun l => decide (t2 ≤ l.1))).map (fun l => l.1 * l.2)).sum := by
  induction xs with
  | nil => simp
  | cons x xs ih =>
    have hx : 0 ≤ x.1 * x.2 := hnn x (by simp)
    have hrest : ∀ l ∈ xs, 0 ≤ l.1 * l.2 := fun l hl => hnn l (by simp [hl])
    have hih := ih hrest
    simp only [List.filter_cons, decide_eq_true_eq]
    by_cases h1 : t1 ≤ x.1
    · have h2 : t2 ≤ x.1 := le_trans h h1
      rw [if_pos h1, if_pos h2]
      simp only [List.map_cons, List.sum_cons]
      linarith
    · by_cases h2 : t2 ≤ x.1
      · rw [if_neg h1, if_pos h2]
        simp only [List.map_cons, List.sum_cons]
        linarith
      · rw [if_neg h1, if_neg h2]
        exact hih

/-- Tightening the upper bound of a `price ≤ threshold` filter can only
drop nonnegative notional terms from the sum. -/
lemma sum_filter_le_mono (xs : List (ℚ × ℚ)) {t1 t2 : ℚ} (h : t1 ≤ t2)
    (hnn : ∀ l ∈ xs, 0 ≤ l.1 * l.2) :
    ((xs.filter (fun l => decide (l.1 ≤ t1))).map (fun l => l.1 * l.2)).sum ≤
    ((xs.filter (fun l => decide (l.1 ≤ t2))).map (fun l => l.1 * l.2)).sum := by
  induction xs with
  | nil => simp
  | cons x xs ih =>
    have hx : 0 ≤ x.1 * x.2 := hnn x (by simp)
    have hrest : ∀ l ∈ xs, 0 ≤ l.1 * l.2 := fun l hl => hnn l (by simp [hl])
    have hih := ih hrest
    simp only [List.filter_cons, decide_eq_true_eq]
    by_cases h1 : x.1 ≤ t1
    · have h2 : x.1 ≤ t2 := le_trans h1 h
      rw [if_pos h1, if_pos h2]
      simp only [List.map_cons, List.sum_cons]
      linarith
    · by_cases h2 : x.1 ≤ t2
      · rw [if_neg h1, if_pos h2]
        simp only [List.map_cons, List.sum_cons]
        linarith
      · rw [if_neg h1, if_neg h2]
        exact hih

/-- C2: for non-empty ladders (with nonnegative prices and sizes, as in
any order-book ladder) and a positive mid price, the depths returned by
`calculate_liquidity_depth` are monotonically non-decreasing in the
threshold on the same side: `bid5 ≤ bid10 ≤ bid25` and
`ask5 ≤ ask10 ≤ ask25`. -/
theorem calculate_liquidity_depth_monotone (bids asks : List (ℚ × ℚ))
    (midPrice : ℚ) (_hbne : bids ≠ []) (_hane : asks ≠ [])
    (hmid : 0 < midPrice)
    (hb : ∀ l ∈ bids, 0 ≤ l.1 ∧ 0 ≤ l.2)
    (ha : ∀ l ∈ asks, 0 ≤ l.1 ∧ 0 ≤ l.2) :
    ((calculate_liquidity_depth bids asks midPrice).1 ≤
        (calculate_liquidity_depth bids asks midPrice).2.2.1 ∧
      (calculate_liquidity_depth bids asks midPrice).2.2.1 ≤
        (calculate_liquidity_depth bids asks midPrice).2.2.2.2.1) ∧
    ((calculate_liquidity_depth bids asks midPrice).2.1 ≤
        (calculate_liquidity_depth bids asks midPrice).2.2.2.1 ∧
      (calculate_liquidity_depth bids asks midPrice).2.2.2.1 ≤
        (calculate_liquidity_depth bids asks midPrice).2.2.2.2.2) := by
  have hbnn : ∀ l ∈ bids, 0 ≤ l.1 * l.2 :=
    fun l hl => mul_nonneg (hb l hl).1 (hb l hl).2
  have hann : ∀ l ∈ asks, 0 ≤ l.1 * l.2 :=
    fun l hl => mul_nonneg (ha l hl).1 (ha l hl).2
  have hb1 : midPrice * (1 - 10/100) ≤ midPrice * (1 - 5/100) :=
    mul_le_mul_of_nonneg_left (by norm_num) hmid.le
  have hb2 : midPrice * (1 - 25/100) ≤ midPrice * (1 - 10/100) :=
    mul_le_mul_of_nonneg_left (by norm_num) hmid.le
  have ha1 : midPrice * (1 + 5/100) ≤ midPrice * (1 + 10/100) :=
    mul_le_mul_of_nonneg_left (by norm_num) hmid.le
  have ha2 : midPrice * (1 + 10/100) ≤ midPrice * (1 + 25/100) :=
    mul_le_mul_of_nonneg_left (by norm_num) hmid.le
  exact ⟨⟨sum_filter_ge_mono bids hb1 hbnn, sum_filter_ge_mono bids hb2 hbnn⟩,
    ⟨sum_filter_le_mono asks ha1 hann, sum_filter_le_mono asks ha2 hann⟩⟩

/-- Witness for C2 at the concrete input
`bids = [(100, 2)]`, `asks = [(101, 1)]`, `midPrice = 100`. -/
theorem calculate_liquidity_depth_monotone_witness :
    ((calculate_liquidity_depth [((100 : ℚ), 2)] [((101 : ℚ), 1)] 100).1 ≤
        (calculate_liquidity_depth [((100 : ℚ), 2)] [((101 : ℚ), 1)] 100).2.2.1 ∧
      (calculate_liquidity_depth [((100 : ℚ), 2)] [((101 : ℚ), 1)] 100).2.2.1 ≤
        (calculate_liquidity_depth [((100 : ℚ), 2)] [((101 : ℚ), 1)] 100).2.2.2.2.1) ∧
    ((calculate_liquidity_depth [((100 : ℚ), 2)] [((101 : ℚ), 1)] 100).2.1 ≤
        (calculate_liquidity_depth [((100 : ℚ), 2)] [((101 : ℚ), 1)] 100).2.2.2.1 ∧
      (calculate_liquidity_depth [((100 : ℚ), 2)] [((101 : ℚ), 1)] 100).2.2.2.1 ≤
        (calculate_liquidity_depth [((100 : ℚ), 2)] [((101 : ℚ), 1)] 100).2.2.2.2.2) :=
  calculate_liquidity_depth_monotone [((100 : ℚ), 2)] [((101 : ℚ), 1)] 100
    (by simp) (by simp) (by norm_num)
    (by intro l hl; simp at hl; simp [hl])
    (by intro l hl; simp at hl; simp [hl])

/-- C5: whenever a refresh fails — the HTTP send failed, the status was
not a success, or the payload failed to parse (any `Except.error` of the
fetch) — the cache swap does not occur: the refresh returns an error, the
cache after the tick is the old cache, and every cached entry is still
readable unchanged. -/
theorem refresh_failure_keeps_cache (cache : Cache) (resp : FetchResponse)
    (hfail : (∃ s, resp = FetchResponse.sendError s) ∨
      (∃ st b, resp = FetchResponse.response st b ∧ statusIsSuccess st = false) ∨
      (∃ e, fetch_and_cache_all_markets resp = Except.error e)) :
    (∃ e, fetch_and_cache_all_markets resp = Except.error e) ∧
    cacheAfterRefresh cache resp = cache ∧
    ∀ coin, get_market_data (cacheAfterRefresh cache resp) coin =
      get_market_data cache coin := by
  have herr : ∃ e, fetch_and_cache_all_markets resp = Except.error e := by
    rcases hfail with ⟨s, rfl⟩ | ⟨st, b, rfl, hst⟩ | he
    · exact ⟨s, rfl⟩
    · refine ⟨"API error: " ++ toString st, ?_⟩
      simp [fetch_and_cache_all_markets, hst]
    · exact he
  obtain ⟨e, he⟩ := herr
  refine ⟨⟨e, he⟩, ?_, ?_⟩ <;> simp [cacheAfterRefresh, he]

/-- Witness for C5: a network error against a non-empty cache. -/
theorem refresh_failure_keeps_cache_witness :
    (∃ e, fetch_and_cache_all_markets (FetchResponse.sendError "timeout") =
      Except.error e) ∧
    cacheAfterRefresh [("BTC", sampleFeedEntry)]
        (FetchResponse.sendError "timeout") = [("BTC", sampleFeedEntry)] ∧
    ∀ coin,
      get_market_data
        (cacheAfterRefresh [("BTC", sampleFeedEntry)]
          (FetchResponse.sendError "timeout")) coin =
      get_market_data [("BTC", sampleFeedEntry)] coin :=
  refresh_failure_keeps_cache [("BTC", sampleFeedEntry)]
    (FetchResponse.sendError "timeout") (Or.inl ⟨"timeout", rfl⟩)

/-- C9: with both ladders non-empty and both best prices parsing, the
spread-percentage computation of `get_orderbook_metrics` divides by
`mid_price = (best_bid + best_ask) / 2` with no zero guard: it panics
(models as `Except.error "Division by zero"`) exactly when
`best_bid + best_ask = 0`. -/
theorem spread_pct_division_by_zero (snap : SnapshotMap) (coin k : String)
    (b0 a0 : RawOrder) (btl atl : List RawOrder) (bb ba : ℚ)
    (hfind : snap.find? (fun kv => kv.1 == coin) = some (k, b0 :: btl, a0 :: atl))
    (hpb : parseDecimal b0.limit_px = some bb)
    (hpa : parseDecimal a0.limit_px = some ba) :
    get_orderbook_metrics (some snap) coin = Except.error "Division by zero" ↔
      bb + ba = 0 := by
  have h2 : ((bb + ba) / 2 = 0) ↔ bb + ba = 0 := by
    constructor
    · intro h; field_simp at h; linarith
    · intro h; rw [h]; norm_num
  simp only [get_orderbook_metrics, hfind, hpb, hpa, List.isEmpty_cons,
    Bool.false_or, Bool.or_self, if_false, Bool.false_eq_true]
  by_cases hz : (bb + ba) / 2 = 0
  · rw [if_pos hz]
    simp [h2.mp hz]
  · rw [if_neg hz]
    simp only [h2] at hz
    simp [hz]

/-- Witness for C9: a snapshot whose best bid and best ask are both the
string `"0"` reaches the division by zero. -/
theorem spread_pct_division_by_zero_witness :
    get_orderbook_metrics
        (some [("X", ([⟨"0", "1"⟩], [⟨"0", "2"⟩]))]) "X" =
      Except.error "Division by zero" :=
  (spread_pct_division_by_zero [("X", ([⟨"0", "1"⟩], [⟨"0", "2"⟩]))] "X" "X"
    ⟨"0", "1"⟩ ⟨"0", "2"⟩ [] [] 0 0 rfl (by decide) (by decide)).mpr (by norm_num)

/-- C7: when the market's snapshot has an empty side, the sample skips
every order-book-derived field (they stay absent), populates the
price-feed fields exactly when cached feed data is available, and the
record is still handed to the store — the empty side is not an error. -/
theorem empty_side_skips_orderbook_fields (coin k : String) (ts : ℤ)
    (hl : Option HyperliquidMarketData) (snap : SnapshotMap)
    (bids asks : List RawOrder)
    (hfind : snap.find? (fun kv => kv.1 == coin) = some (k, bids, asks))
    (hempty : bids = [] ∨ asks = []) :
    ∃ M, collect_and_store_metrics coin ts hl (some snap) = Except.ok M ∧
      M.best_bid = none ∧ M.best_ask = none ∧ M.mid_price = none ∧
      M.spread = none ∧ M.spread_pct = none ∧
      M.bid_depth_5pct = none ∧ M.ask_depth_5pct = none ∧
      M.total_depth_5pct = none ∧ M.bid_depth_10pct = none ∧
      M.ask_depth_10pct = none ∧ M.total_depth_10pct = none ∧
      M.bid_depth_25pct = none ∧ M.ask_depth_25pct = none ∧
      M.total_depth_25pct = none ∧
      (∀ d, hl = some d →
        M.mark_price = some d.mark_price ∧
        M.oracle_price = some d.oracle_price ∧
        M.funding_rate_pct = some d.funding_rate_pct ∧
        M.open_interest = some d.open_interest ∧
        M.volume_24h = some d.volume_24h ∧
        M.premium = some d.premium ∧
        M.impact_px_bid = d.impact_px_bid ∧
        M.impact_px_ask = d.impact_px_ask) ∧
      (hl = none → M.mark_price = none) := by
  have hob : get_orderbook_metrics (some snap) coin = Except.ok none := by
    rcases hempty with rfl | rfl <;> simp [get_orderbook_metrics, hfind]
  refine ⟨(match hl with
    | some d => (MarketMetrics.new coin ts).merge_hyperliquid_data d
    | none => MarketMetrics.new coin ts), ?_, ?_⟩
  · cases hl <;> simp [collect_and_store_metrics, hob]
  · cases hl <;>
      simp [MarketMetrics.new, MarketMetrics.merge_hyperliquid_data]

/-- Witness for C7: a snapshot with only a bid ladder and cached feed
data available. -/
theorem empty_side_skips_orderbook_fields_witness :
    ∃ M, collect_and_store_metrics "BTC" 0 (some sampleFeedEntry)
        (some [("BTC", ([⟨"100", "1"⟩], []))]) = Except.ok M ∧
      M.best_bid = none ∧ M.best_ask = none ∧ M.mid_price = none ∧
      M.spread = none ∧ M.spread_pct = none ∧
      M.bid_depth_5pct = none ∧ M.ask_depth_5pct = none ∧
      M.total_depth_5pct = none ∧ M.bid_depth_10pct = none ∧
      M.ask_depth_10pct = none ∧ M.total_depth_10pct = none ∧
      M.bid_depth_25pct = none ∧ M.ask_depth_25pct = none ∧
      M.total_depth_25pct = none ∧
      (∀ d, some sampleFeedEntry = some d →
        M.mark_price = some d.mark_price ∧
        M.oracle_price = some d.oracle_price ∧
        M.funding_rate_pct = some d.funding_rate_pct ∧
        M.open_interest = some d.open_interest ∧
        M.volume_24h = some d.volume_24h ∧
        M.premium = some d.premium ∧
        M.impact_px_bid = d.impact_px_bid ∧
        M.impact_px_ask = d.impact_px_ask) ∧
      (some sampleFeedEntry = none → M.mark_price = none) :=
  empty_side_skips_orderbook_fields "BTC" "BTC" 0 (some sampleFeedEntry)
    [("BTC", ([⟨"100", "1"⟩], []))] [⟨"100", "1"⟩] [] rfl (Or.inr rfl)

/-- Counterexample to C3: a market context whose required numeric field
`funding` is missing does not degrade to zero — the per-market serde
deserialization fails and the `?` aborts the whole refresh with an
error. -/
theorem missing_field_aborts_refresh :
    fetch_and_cache_all_markets
        (FetchResponse.response 200
          (Except.ok (feedBody "BTC" (ctxMissingFunding "10" "9" "5" "100")))) =
      Except.error "missing field funding" := rfl

/-- C3 as amended: an *unparseable* numeric string degrades to a zero
value for that field and the refresh still succeeds, caching the market's
entry; but a *missing* required numeric field (here `funding`) fails the
per-market deserialization and aborts the whole refresh with an error. -/
theorem unparseable_degrades_missing_aborts
    (name mark oracle funding oi vol : String)
    (hf : parseDecimal funding = none) :
    (∃ entry, fetch_and_cache_all_markets
        (feedResp name (feedCtxJson mark oracle funding oi vol none none none)) =
          Except.ok [(name, entry)] ∧
      entry.funding_rate_pct = 0 ∧
      get_market_data [(name, entry)] name = some entry) ∧
    fetch_and_cache_all_markets
        (FetchResponse.response 200
          (Except.ok (feedBody name (ctxMissingFunding mark oracle oi vol)))) =
      Except.error "missing field funding" := by
  refine ⟨⟨mkMarketData ⟨name⟩
    ⟨mark, oracle, none, funding, oi, vol, none, none⟩, rfl, ?_, ?_⟩, rfl⟩
  · simp [mkMarketData, hf]
  · simp [get_market_data]

/-- Witness for C3 (amended) at `funding = "abc"`. -/
theorem unparseable_degrades_missing_aborts_witness :
    (∃ entry, fetch_and_cache_all_markets
        (feedResp "BTC" (feedCtxJson "10" "9" "abc" "5" "100" none none none)) =
          Except.ok [("BTC", entry)] ∧
      entry.funding_rate_pct = 0 ∧
      get_market_data [("BTC", entry)] "BTC" = some entry) ∧
    fetch_and_cache_all_markets
        (FetchResponse.response 200
          (Except.ok (feedBody "BTC" (ctxMissingFunding "10" "9" "5" "100")))) =
      Except.error "missing field funding" :=
  unparseable_degrades_missing_aborts "BTC" "10" "9" "abc" "5" "100" rfl

/-- Counterexample to C4: with `midPx`, `premium` and `impactPxs` all
omitted upstream, the cached entry records a zero mid price and a zero
premium (the fields are not optional in the cached type), and merging
writes `premium = some 0` — present, not absent — into the record. -/
theorem omitted_mid_premium_cached_as_zero :
    fetch_and_cache_all_markets
        (feedResp "BTC" (feedCtxJson "10" "9" "0.01" "5" "100" none none none)) =
      Except.ok [("BTC", mkMarketData ⟨"BTC"⟩
        ⟨"10", "9", none, "0.01", "5", "100", none, none⟩)] ∧
    (mkMarketData ⟨"BTC"⟩
      ⟨"10", "9", none, "0.01", "5", "100", none, none⟩).mid_price = 0 ∧
    (mkMarketData ⟨"BTC"⟩
      ⟨"10", "9", none, "0.01", "5", "100", none, none⟩).premium = 0 ∧
    ((MarketMetrics.new "BTC" 0).merge_hyperliquid_data
      (mkMarketData ⟨"BTC"⟩
        ⟨"10", "9", none, "0.01", "5", "100", none, none⟩)).premium =
      some 0 :=
  ⟨rfl, rfl, rfl, rfl⟩

/-- C4 as amended: only the impact prices are genuinely optional — they
are present in the cached entry exactly when `impactPxs` supplies them
and absent when it is omitted; the mid price and premium are non-optional
in the cached entry and default to zero when the upstream omits them, the
merge always writes `premium` (possibly `some 0`) into the record, and
the feed mid price is never copied into the record's `mid_price`. -/
theorem impact_optional_mid_premium_default_zero
    (name mark oracle funding oi vol sb sa : String) :
    (∃ entry, fetch_and_cache_all_markets
        (feedResp name
          (feedCtxJson mark oracle funding oi vol none none (some [sb, sa]))) =
          Except.ok [(name, entry)] ∧
      entry.impact_px_bid = parseDecimal sb ∧
      entry.impact_px_ask = parseDecimal sa ∧
      entry.mid_price = 0 ∧ entry.premium = 0) ∧
    (∃ entry, fetch_and_cache_all_markets
        (feedResp name (feedCtxJson mark oracle funding oi vol none none none)) =
          Except.ok [(name, entry)] ∧
      entry.impact_px_bid = none ∧ entry.impact_px_ask = none ∧
      entry.mid_price = 0 ∧ entry.premium = 0 ∧
      ((MarketMetrics.new name 0).merge_hyperliquid_data entry).premium =
        some 0 ∧
      ((MarketMetrics.new name 0).merge_hyperliquid_data entry).mid_price =
        none) :=
  ⟨⟨mkMarketData ⟨name⟩ ⟨mark, oracle, none, funding, oi, vol, none,
      some [sb, sa]⟩, rfl, rfl, rfl, rfl, rfl⟩,
   ⟨mkMarketData ⟨name⟩ ⟨mark, oracle, none, funding, oi, vol, none, none⟩,
      rfl, rfl, rfl, rfl, rfl, rfl, rfl⟩⟩

end MarketMetricsVerif
